import Mathlib

/-!
Verification of the MCP board command-interpretation core.

This file gives a shallow embedding, in Lean 4, of the Python modules
`mcp_logger.py`, `database.py`, `chart_generator.py`, `mcp_server_real.py`
and the relevant handlers of `app.py`, and proves or refutes the frozen
claims C1..C10 about them.

Embedding conventions:
  * Python floats are modelled as rationals (the claims only involve
    pass-through, comparison and exact arithmetic of such values).
  * Wall-clock readings (timestamps, elapsed durations) are passed in as
    explicit parameters, since the code only stores them.
  * The `asyncio.Lock` of the logger is modelled by an explicit `locked`
    flag: acquiring a lock that is already held blocks the task forever
    (asyncio locks are not reentrant), which the embedding renders as the
    operation returning `none` (divergence / deadlock).
  * `dict`-shaped JSON-ish values (AI replies, log `details`) are modelled
    by the inductive `JValue`, with Python truthiness as `JValue.truthy`.
  * The Anthropic client and the chart-code synthesis step that may invoke
    it are the external-collaborator boundary: chart dispatches take the
    outcome of that step as an explicit `ChartStep` parameter
    (`ok code method message`, or `fault e` for an unexpected exception).
    Per `generate_chart_code_with_ai` / `generate_multi_author_chart_code`
    the step never returns `success = False`, so `ok` carries no flag.
-/

set_option maxHeartbeats 2000000
set_option maxRecDepth 4096

namespace MCPBoard

/-! ## Small Python-semantics helpers -/

/-- The whitespace set of Python `str.strip()` (ASCII part; the commands and
messages in this repository contain no exotic unicode whitespace). -/
def isSpaceChar (c : Char) : Bool :=
  c == ' ' || c == '\t' || c == '\n' || c == '\r' || c.toNat == 11 || c.toNat == 12

/-- Embeds `str.strip()` on the character list. -/
def stripChars (l : List Char) : List Char :=
  ((l.dropWhile isSpaceChar).reverse.dropWhile isSpaceChar).reverse

/-- Python `str.strip()`. -/
def pyStrip (s : String) : String := String.mk (stripChars s.data)

/-- Python `str.lower()` (ASCII letters; Korean text is unaffected). -/
def pyLower (s : String) : String :=
  String.mk (s.data.map fun c =>
    if 'A' ≤ c && c ≤ 'Z' then Char.ofNat (c.toNat + 32) else c)

/-- Does `hay` start with `needle`? -/
def leadsWith : List Char → List Char → Bool
  | [], _ => true
  | _ :: _, [] => false
  | c :: cs, d :: ds => c == d && leadsWith cs ds

/-- Substring test on character lists (Python `needle in hay`). -/
def containsSub (needle : List Char) : List Char → Bool
  | [] => leadsWith needle []
  | d :: ds => leadsWith needle (d :: ds) || containsSub needle ds

/-- Python `needle in hay` on strings. -/
def strIn (needle hay : String) : Bool := containsSub needle.data hay.data

/-- The last `n` elements of a list (`l[-n:]` for `n ≥ 1`). -/
def takeLast (n : Nat) (l : List α) : List α := l.drop (l.length - n)

/-- Python slice `l[-m:]` for a nonnegative `m`.  Crucially `l[-0:] = l[0:]`
keeps the whole list. -/
def pySliceLast (m : Nat) (l : List α) : List α :=
  if m = 0 then l else takeLast m l

/-- Order-preserving deduplication, keeping first occurrences
(`list(dict.fromkeys(...))`). -/
def dedupAux (seen : List String) : List String → List String
  | [] => []
  | x :: xs => if seen.contains x then dedupAux seen xs else x :: dedupAux (x :: seen) xs

/-- Embeds `list(dict.fromkeys(names))`. -/
def dedupKeepFirst (l : List String) : List String := dedupAux [] l

/-- Python `round` (round-half-to-even) to an integer. -/
def roundHalfEven (q : ℚ) : ℤ :=
  let f : ℤ := ⌊q⌋
  let r : ℚ := q - f
  if r < 1/2 then f
  else if r > 1/2 then f + 1
  else if f % 2 = 0 then f else f + 1

/-- Python `round(x, 2)` modelled over the rationals. -/
def pyRound2 (q : ℚ) : ℚ := (roundHalfEven (q * 100) : ℚ) / 100

/-- Python `max(values)` on a nonempty list (0 on `[]`, which the code
guards against with `if values else 0`). -/
def pyMax : List ℚ → ℚ
  | [] => 0
  | x :: xs => xs.foldl max x

/-- Python `min(values)` on a nonempty list (0 on `[]`). -/
def pyMin : List ℚ → ℚ
  | [] => 0
  | x :: xs => xs.foldl min x

/-- Sum of a list of rationals. -/
def listSum (l : List ℚ) : ℚ := l.foldl (· + ·) 0

/-! ## JSON-ish Python values -/

/-- A Python/JSON value, used for AI replies and for the `details` maps of
log entries. `null` models Python `None`. -/
inductive JValue where
  | null
  | bool (b : Bool)
  | num (q : ℚ)
  | str (s : String)
  | arr (xs : List JValue)
  | obj (fields : List (String × JValue))

/-- Python truthiness of a `JValue`. -/
def JValue.truthy : JValue → Bool
  | .null => false
  | .bool b => b
  | .num q => q != 0
  | .str s => s != ""
  | .arr xs => !xs.isEmpty
  | .obj fs => !fs.isEmpty

/-- Embeds `dict` lookup: `d.get(k)` without a default (missing key ↦ `none`;
a stored `None` is returned as `some .null`, exactly like Python). -/
def JValue.get : JValue → String → Option JValue
  | .obj fs, k => (fs.find? fun p => p.fst == k).map Prod.snd
  | _, _ => none

/-! ## The Audit Logger (`mcp_logger.py`) -/

/-- Embeds `LogLevel`. -/
inductive LogLevel where
  | info | success | warning | error | debug
deriving DecidableEq

/-- Embeds `LogLevel.value`. -/
def LogLevel.val : LogLevel → String
  | .info => "info"
  | .success => "success"
  | .warning => "warning"
  | .error => "error"
  | .debug => "debug"

/-- The payload of one `MCPLogger.log(...)` call: everything of an
`MCPLogEntry` except the timestamp, which the logger assigns. -/
structure LogRec where
  level : LogLevel
  category : String
  message : String
  details : Option JValue
  duration_ms : Option ℚ

/-- Embeds `MCPLogEntry`. -/
structure MCPLogEntry where
  timestamp : String
  level : LogLevel
  category : String
  message : String
  details : Option JValue
  duration_ms : Option ℚ

/-- Embeds `MCPLogEntry.to_dict()`: the level enum is replaced by its string value. -/
def MCPLogEntry.toDict (e : MCPLogEntry) : JValue :=
  .obj [("timestamp", .str e.timestamp),
        ("level", .str e.level.val),
        ("category", .str e.category),
        ("message", .str e.message),
        ("details", e.details.getD .null),
        ("duration_ms", match e.duration_ms with | some d => .num d | none => .null)]

/-- Embeds `MCPLogger` state: the capacity, the buffer, and the state of the
(non-reentrant) `asyncio.Lock`. -/
structure MCPLogger where
  max_logs : Nat
  logs : List MCPLogEntry
  locked : Bool

/-- Embeds `MCPLogger(max_logs=N)`. -/
def mkLogger (n : Nat) : MCPLogger := { max_logs := n, logs := [], locked := false }

/-- The buffer after appending one entry: `logs.append(entry)` followed by
`if len(self.logs) > self.max_logs: self.logs = self.logs[-self.max_logs:]`. -/
def logStep (n : Nat) (l : List MCPLogEntry) (e : MCPLogEntry) : List MCPLogEntry :=
  let l' := l ++ [e]
  if l'.length > n then pySliceLast n l' else l'

/-- Embeds `MCPLogger.log(level, category, message, details, duration_ms)`.
The timestamp `ts` is the clock reading taken inside the call.  Acquiring
the lock while it is held blocks the task forever, rendered as `none`. -/
def MCPLogger.log (lg : MCPLogger) (ts : String) (level : LogLevel)
    (category message : String) (details : Option JValue)
    (duration_ms : Option ℚ) : Option MCPLogger :=
  if lg.locked then none
  else
    some { lg with
      logs := logStep lg.max_logs lg.logs
        { timestamp := ts, level := level, category := category,
          message := message, details := details, duration_ms := duration_ms } }

/-- Embeds `MCPLogger.get_logs(limit)`: `self.logs[-limit:] if limit else self.logs`,
each entry converted with `to_dict`.  `limit` is an optional Python int and
a falsy limit (absent or `0`) keeps the whole buffer. -/
def MCPLogger.getLogs (lg : MCPLogger) (limit : Option ℤ) : Option (List JValue) :=
  if lg.locked then none
  else
    let toReturn :=
      match limit with
      | none => lg.logs
      | some l =>
        if l = 0 then lg.logs
        else if l > 0 then takeLast l.toNat lg.logs
        else lg.logs.drop l.natAbs
    some (toReturn.map MCPLogEntry.toDict)

/-- Embeds `MCPLogger.clear_logs()`: acquires the lock, clears the buffer, then
awaits `self.log(...)` *while still holding the lock*.  The inner `log`
tries to acquire the same non-reentrant lock, so the coroutine waits
forever: the embedded operation never produces a final state. -/
def MCPLogger.clearLogs (lg : MCPLogger) (ts : String) : Option MCPLogger :=
  if lg.locked then none
  else
    let held := { lg with locked := true, logs := [] }
    (held.log ts .info "system" "로그가 초기화되었습니다." none none).map
      fun lg2 => { lg2 with locked := false }

/-- One `record` call: the clock reading plus the entry payload. -/
structure LogCall where
  ts : String
  payload : LogRec

/-- The entry an append call produces. -/
def mkEntry (c : LogCall) : MCPLogEntry :=
  { timestamp := c.ts, level := c.payload.level, category := c.payload.category,
    message := c.payload.message, details := c.payload.details,
    duration_ms := c.payload.duration_ms }

/-- A sequence of `record` calls against the logger. -/
def logMany (lg : MCPLogger) : List LogCall → Option MCPLogger
  | [] => some lg
  | c :: cs => do
    let lg' ← lg.log c.ts c.payload.level c.payload.category c.payload.message
      c.payload.details c.payload.duration_ms
    logMany lg' cs

/-! ## The Entity Store (`database.py`) -/

/-- A `Post` row.  `created_at` is an abstract timestamp string; `content`
is non-null in every code path that creates posts. -/
structure Post where
  id : ℤ
  author : String
  title : String
  content : String
  numeric_value : Option ℚ
  category : Option String
  created_at : String
deriving DecidableEq

/-- Embeds `DatabaseManager.get_post_by_id`: `filter(Post.id == post_id).first()`. -/
def getPostById (db : List Post) (pid : ℤ) : Option Post :=
  db.find? fun p => p.id == pid

/-- Embeds `DatabaseManager.get_posts_by_author` (rows in table order). -/
def getPostsByAuthor (db : List Post) (a : String) : List Post :=
  db.filter fun p => p.author == a

/-- Replace the first row with the given id. -/
def replaceFirst (f : Post → Post) (pid : ℤ) : List Post → List Post
  | [] => []
  | p :: rest => if p.id == pid then f p :: rest else p :: replaceFirst f pid rest

/-- Remove the first row with the given id. -/
def removeFirst (pid : ℤ) : List Post → List Post
  | [] => []
  | p :: rest => if p.id == pid then rest else p :: removeFirst pid rest

/-- Embeds `DatabaseManager.update_post(post_id, title, content, author)`: sets the
three mutable fields of the matching row and returns `True`, or returns
`False` leaving the store untouched when no row matches. -/
def updatePostDb (db : List Post) (pid : ℤ) (title content author : String) :
    Bool × List Post :=
  if db.any (fun p => p.id == pid) then
    (true, replaceFirst
      (fun p => { p with title := title, content := content, author := author })
      pid db)
  else (false, db)

/-- Embeds `DatabaseManager.delete_post(post_id)`. -/
def deletePostDb (db : List Post) (pid : ℤ) : Bool × List Post :=
  if db.any (fun p => p.id == pid) then (true, removeFirst pid db)
  else (false, db)

/-- Embeds `DatabaseManager.get_authors_with_numeric_data`: distinct authors of
rows with a non-null `numeric_value`, first occurrences kept in row order. -/
def authorsWithNumericData (db : List Post) : List String :=
  dedupKeepFirst ((db.filter fun p => p.numeric_value.isSome).map Post.author)

/-! ## The Chart Generator helpers (`chart_generator.py`) -/

/-- Embeds `ChartGenerator.get_author_numeric_data`: the author's rows that carry a
numeric value, in store order. -/
def numericPosts (db : List Post) (a : String) : List Post :=
  (getPostsByAuthor db a).filter fun p => p.numeric_value.isSome

/-- Embeds `ChartGenerator.validate_chart_type`. -/
def validateChartType (ct : String) : Bool :=
  ct == "bar" || ct == "line" || ct == "pie" || ct == "doughnut"

/-- The numeric values of a run of posts (rows whose numeric_value is not None). -/
def numericValues (posts : List Post) : List ℚ :=
  posts.filterMap Post.numeric_value

/-- Embeds `ChartGenerator.generate_chart_summary`. -/
structure SingleSummary where
  author : String
  total_posts : Nat
  average_value : ℚ
  max_value : ℚ
  min_value : ℚ
deriving DecidableEq

/-- Embeds `ChartGenerator.generate_chart_summary(author_name, chart_data)`. -/
def generateChartSummary (author : String) (chartData : List Post) : SingleSummary :=
  if chartData.isEmpty then
    { author := author, total_posts := 0, average_value := 0,
      max_value := 0, min_value := 0 }
  else
    let values := numericValues chartData
    { author := author
      total_posts := chartData.length
      average_value := if !values.isEmpty then pyRound2 (listSum values / values.length) else 0
      max_value := if !values.isEmpty then pyMax values else 0
      min_value := if !values.isEmpty then pyMin values else 0 }

/-- Per-author statistics of `_generate_multi_author_summary`. -/
structure AuthorStats where
  posts : Nat
  total_value : ℚ
  average_value : ℚ
  max_value : ℚ
  min_value : ℚ
deriving DecidableEq

/-- The summary of `_generate_multi_author_summary`. -/
structure MultiSummary where
  authors : List String
  total_authors : Nat
  total_posts : Nat
  total_value : ℚ
  average_value : ℚ
  author_breakdown : List (String × AuthorStats)
deriving DecidableEq

/-- Embeds `RealMCPServer._generate_multi_author_summary(author_names, all_data)`. -/
def generateMultiAuthorSummary (authorNames : List String) (allData : List Post) :
    MultiSummary :=
  if allData.isEmpty then
    { authors := authorNames, total_authors := authorNames.length,
      total_posts := 0, total_value := 0, average_value := 0,
      author_breakdown := [] }
  else
    let breakdown := authorNames.map fun a =>
      let posts := allData.filter fun p => p.author == a
      let values := numericValues posts
      (a, { posts := posts.length
            total_value := if !values.isEmpty then pyRound2 (listSum values) else 0
            average_value := if !values.isEmpty then pyRound2 (listSum values / values.length) else 0
            max_value := if !values.isEmpty then pyMax values else 0
            min_value := if !values.isEmpty then pyMin values else 0 : AuthorStats })
    let allValues := numericValues allData
    { authors := authorNames
      total_authors := authorNames.length
      total_posts := allData.length
      total_value := if !allValues.isEmpty then pyRound2 (listSum allValues) else 0
      average_value := if !allValues.isEmpty then pyRound2 (listSum allValues / allValues.length) else 0
      author_breakdown := breakdown }

/-! ## Chart dispatch (`mcp_server_real.py`) -/

/-- Outcome of the chart-code synthesis step
(`generate_chart_code_with_ai` / `generate_multi_author_chart_code`), the
boundary to the external AI collaborator.  In the source this step always
reports `success = True` (simulation fallback, AI success, or
fallback-after-AI-error), so `ok` carries the produced code and the method
tag; `fault e` models this step raising an unexpected exception `e`. -/
inductive ChartStep where
  | ok (chart_code : String) (method : String) (message : String)
  | fault (err : String)

/-- A chart summary of either shape. -/
inductive ChartSummary where
  | single (s : SingleSummary)
  | multi (m : MultiSummary)
deriving DecidableEq

/-- The dict returned by `generate_author_chart` /
`generate_multi_author_chart` (keys absent from a given return site are
`none`). -/
structure ChartGenResult where
  success : Bool
  message : String
  chart_code : Option String
  method : String
  data_count : Option Nat
  summary : Option ChartSummary
  mcp_enabled : Option Bool
  authors : Option (List String)
deriving DecidableEq

/-- Embeds `", ".join(authors)` with the `"없음"` fallback for an empty list. -/
def joinAuthors (l : List String) : String :=
  if !l.isEmpty then String.intercalate ", " l else "없음"

/-- The entry produced by `MCPLogger.log_api_call`. -/
def logApiCallRec (api : String) (params : JValue) : LogRec :=
  { level := .info, category := "api_call", message := api ++ " API 호출",
    details := some (.obj [("api", .str api), ("parameters", params)]),
    duration_ms := none }

/-- The entry produced by `MCPLogger.log_api_response`. -/
def logApiRespRec (api : String) (success : Bool) (dur : ℚ) (details : JValue) :
    LogRec :=
  { level := if success then .success else .error
    category := "api_call"
    message := api ++ " API " ++ (if success then "성공" else "실패")
    details := some details
    duration_ms := some dur }

/-- The entry produced by `MCPLogger.log_chart_generation`. -/
def logChartGenRec (chartType : String) (authors : List String) (success : Bool)
    (method : String) (dur : ℚ) : LogRec :=
  { level := if success then .success else .error
    category := "chart_generation"
    message := chartType ++ " 차트 생성 " ++ (if success then "성공" else "실패")
      ++ " (작성자: " ++ joinAuthors authors ++ ")"
    details := some (.obj [("chart_type", .str chartType),
                           ("authors", .arr (authors.map .str)),
                           ("method", .str method),
                           ("success", .bool success)])
    duration_ms := some dur }

/-- The entry produced by `MCPLogger.log_error`. -/
def logErrorRec (category msg : String) (details : Option JValue) : LogRec :=
  { level := .error, category := category, message := "오류 발생: " ++ msg,
    details := details, duration_ms := none }

/-- Embeds `RealMCPServer.generate_author_chart(author_name, chart_type)`.

Besides the result dict, the embedding returns the list of audit records
the dispatch appends to the global logger, in append order.  `step` is the
outcome of the chart-code synthesis step, `mcpEnabled` the value of
`is_real_mcp_available()`, and `elapsed` the measured duration in ms. -/
def generateAuthorChart (db : List Post) (step : ChartStep) (mcpEnabled : Bool)
    (elapsed : ℚ) (authorName chartType : String) :
    ChartGenResult × List LogRec :=
  let callRec := logApiCallRec "generate_author_chart"
    (.obj [("author_name", .str authorName), ("chart_type", .str chartType)])
  if !validateChartType chartType then
    ({ success := false
       message := "지원하지 않는 차트 타입입니다: " ++ chartType
       chart_code := none, method := "validation_error", data_count := none,
       summary := none, mcp_enabled := none, authors := none }, [callRec])
  else
    let authorPosts := numericPosts db authorName
    if authorPosts.isEmpty then
      ({ success := false
         message := "\x27" ++ authorName ++ "\x27 작성자의 숫자 데이터를 찾을 수 없습니다. 사용 가능한 작성자: "
           ++ joinAuthors (authorsWithNumericData db)
         chart_code := none, method := "no_data_found", data_count := none,
         summary := none, mcp_enabled := none, authors := none }, [callRec])
    else
      match step with
      | .fault err =>
        ({ success := false
           message := "차트 생성 중 오류가 발생했습니다: " ++ err
           chart_code := none, method := "error", data_count := none,
           summary := none, mcp_enabled := some mcpEnabled, authors := none },
         [callRec,
          logChartGenRec chartType [authorName] false "error" elapsed,
          logErrorRec "chart_generation" ("차트 생성 실패: " ++ err)
            (some (.obj [("author_name", .str authorName),
                         ("chart_type", .str chartType)])),
          logApiRespRec "generate_author_chart" false elapsed
            (.obj [("error", .str err)])])
      | .ok code method _msg =>
        let summary := generateChartSummary authorName authorPosts
        let methodMsg := if method == "ai_generated" then "🤖 AI로 생성됨" else "⚙️ 로컬로 생성됨"
        ({ success := true
           message := methodMsg ++ " - \x27" ++ authorName ++ "\x27 작성자의 "
             ++ chartType ++ " 차트가 생성되었습니다."
           chart_code := some code
           method := method
           data_count := some authorPosts.length
           summary := some (.single summary)
           mcp_enabled := some mcpEnabled
           authors := none },
         [callRec,
          logChartGenRec chartType [authorName] true method elapsed,
          logApiRespRec "generate_author_chart" true elapsed
            (.obj [("author_name", .str authorName),
                   ("chart_type", .str chartType),
                   ("data_count", .num authorPosts.length),
                   ("method", .str method)])])

/-- Embeds `RealMCPServer.generate_multi_author_chart(author_names, chart_type)`,
with the same conventions as `generateAuthorChart`. -/
def generateMultiAuthorChart (db : List Post) (step : ChartStep)
    (mcpEnabled : Bool) (elapsed : ℚ) (authorNames : List String)
    (chartType : String) : ChartGenResult × List LogRec :=
  let callRec := logApiCallRec "generate_multi_author_chart"
    (.obj [("author_names", .arr (authorNames.map .str)),
           ("chart_type", .str chartType)])
  if authorNames.isEmpty then
    ({ success := false, message := "작성자가 지정되지 않았습니다."
       chart_code := none, method := "validation_error", data_count := none,
       summary := none, mcp_enabled := none, authors := none }, [callRec])
  else if !validateChartType chartType then
    ({ success := false
       message := "지원하지 않는 차트 타입입니다: " ++ chartType
       chart_code := none, method := "validation_error", data_count := none,
       summary := none, mcp_enabled := none, authors := none }, [callRec])
  else
    let allAuthorData := authorNames.flatMap fun a => numericPosts db a
    let validAuthors := authorNames.filter fun a => !(numericPosts db a).isEmpty
    if allAuthorData.isEmpty then
      ({ success := false
         message := "지정된 작성자들의 숫자 데이터를 찾을 수 없습니다: "
           ++ String.intercalate ", " authorNames
           ++ ". 사용 가능한 작성자: " ++ joinAuthors (authorsWithNumericData db)
         chart_code := none, method := "no_data_found", data_count := none,
         summary := none, mcp_enabled := none, authors := none }, [callRec])
    else
      match step with
      | .fault err =>
        ({ success := false
           message := "다중 작성자 차트 생성 중 오류가 발생했습니다: " ++ err
           chart_code := none, method := "error", data_count := none,
           summary := none, mcp_enabled := some mcpEnabled, authors := none },
         [callRec,
          logChartGenRec chartType authorNames false "error" elapsed,
          logErrorRec "chart_generation" ("다중 작성자 차트 생성 실패: " ++ err)
            (some (.obj [("author_names", .arr (authorNames.map .str)),
                         ("chart_type", .str chartType)])),
          logApiRespRec "generate_multi_author_chart" false elapsed
            (.obj [("error", .str err)])])
      | .ok code method _msg =>
        let summary := generateMultiAuthorSummary validAuthors allAuthorData
        let methodMsg := if method == "ai_generated" then "🤖 AI로 생성됨" else "⚙️ 로컬로 생성됨"
        ({ success := true
           message := methodMsg ++ " - " ++ String.intercalate ", " validAuthors
             ++ " 작성자들의 " ++ chartType ++ " 차트가 생성되었습니다."
           chart_code := some code
           method := method
           data_count := some allAuthorData.length
           summary := some (.multi summary)
           mcp_enabled := some mcpEnabled
           authors := some validAuthors },
         [callRec,
          logChartGenRec chartType validAuthors true method elapsed,
          logApiRespRec "generate_multi_author_chart" true elapsed
            (.obj [("authors", .arr (validAuthors.map .str)),
                   ("chart_type", .str chartType),
                   ("data_count", .num allAuthorData.length),
                   ("method", .str method)])])

/-! ## A small backtracking regex engine

The fallbacks of `mcp_server_real.py` use `re.search` / `re.findall` over a
fixed family of patterns.  Every quantifier in those patterns applies to a
single-character class, which the engine below exploits: `star`/`plus`
(greedy and lazy) range over `CClass`.  Matching follows the Python
backtracking semantics — leftmost start position, greedy quantifiers try
long first, lazy ones short first, alternation tries the left branch
first, and capture groups record the consumed substring. -/

/-- The single-quote character (U+0027). -/
def quoteChar : Char := Char.ofNat 39

/-- A character class. `word` models the Python unicode `\w` for the scripts
this repository uses: ASCII alphanumerics, underscore, Hangul syllables and
jamo. -/
inductive CClass where
  | lit (c : Char)
  | word
  | space
  | digit
  | dot
  | oneOf (cs : List Char)
  | noneOf (cs : List Char)

/-- Membership in a character class. -/
def CClass.test : CClass → Char → Bool
  | .lit d, c => c == d
  | .word, c =>
      ('a' ≤ c && c ≤ 'z') || ('A' ≤ c && c ≤ 'Z') || ('0' ≤ c && c ≤ '9')
      || c == '_' || (0xAC00 ≤ c.toNat && c.toNat ≤ 0xD7A3)
      || (0x1100 ≤ c.toNat && c.toNat ≤ 0x11FF)
      || (0x3130 ≤ c.toNat && c.toNat ≤ 0x318F)
  | .space, c => isSpaceChar c
  | .digit, c => '0' ≤ c && c ≤ '9'
  | .dot, c => c != '\n'
  | .oneOf cs, c => cs.contains c
  | .noneOf cs, c => !cs.contains c

/-- Regular expressions as used by the fallback patterns.  `grp` is a
capturing group; `starG`/`plusG` are greedy, `starL`/`plusL` lazy; `eos`
is the `$` anchor. -/
inductive Rx where
  | eps
  | cls (c : CClass)
  | cat (a b : Rx)
  | alt (a b : Rx)
  | grp (a : Rx)
  | opt (a : Rx)
  | starG (c : CClass)
  | plusG (c : CClass)
  | starL (c : CClass)
  | plusL (c : CClass)
  | eos

/-- Sequence of several regexes. -/
def rxSeq (l : List Rx) : Rx := l.foldr .cat .eps

/-- The literal regex of a string. -/
def rxStr (s : String) : Rx := rxSeq (s.data.map fun c => .cls (.lit c))

/-- n-ary alternation (right-nested, left branch preferred). -/
def rxAlt : List Rx → Rx
  | [] => .eps
  | [r] => r
  | r :: rs => .alt r (rxAlt rs)

/-- First-match-wins `Option` choice. -/
def obind (a : Option α) (b : Unit → Option α) : Option α :=
  match a with
  | some x => some x
  | none => b ()

/-- Length of the run of leading characters in the class. -/
def runLen (c : CClass) : List Char → Nat
  | [] => 0
  | a :: s => if c.test a then runLen c s + 1 else 0

/-- The continuation type: remaining input and captures so far, producing
the remaining input and captures of a full match. -/
abbrev MCont := List Char → List String → Option (List Char × List String)

/-- Greedy quantifier tail: try consuming `i, i-1, ..., 0` characters. -/
def tryDown (s : List Char) (caps : List String) (k : MCont) : Nat → Option (List Char × List String)
  | 0 => k s caps
  | i + 1 => obind (k (s.drop (i + 1)) caps) fun _ => tryDown s caps k i

/-- Lazy quantifier tail: try consuming `i, i+1, ..., i+budget` characters. -/
def tryUp (s : List Char) (caps : List String) (k : MCont) : Nat → Nat → Option (List Char × List String)
  | 0, i => k (s.drop i) caps
  | b + 1, i => obind (k (s.drop i) caps) fun _ => tryUp s caps k b (i + 1)

/-- The backtracking matcher. -/
def mtch : Rx → List Char → List String → MCont → Option (List Char × List String)
  | .eps, s, caps, k => k s caps
  | .cls c, s, caps, k =>
      match s with
      | [] => none
      | a :: rest => if c.test a then k rest caps else none
  | .cat r1 r2, s, caps, k => mtch r1 s caps fun s' caps' => mtch r2 s' caps' k
  | .alt r1 r2, s, caps, k => obind (mtch r1 s caps k) fun _ => mtch r2 s caps k
  | .grp r, s, caps, k =>
      mtch r s caps fun s' caps' =>
        k s' (caps' ++ [String.mk (s.take (s.length - s'.length))])
  | .opt r, s, caps, k => obind (mtch r s caps k) fun _ => k s caps
  | .starG c, s, caps, k => tryDown s caps k (runLen c s)
  | .plusG c, s, caps, k =>
      match s with
      | [] => none
      | a :: rest => if c.test a then tryDown rest caps k (runLen c rest) else none
  | .starL c, s, caps, k => tryUp s caps k (runLen c s) 0
  | .plusL c, s, caps, k =>
      match s with
      | [] => none
      | a :: rest => if c.test a then tryUp rest caps k (runLen c rest) 0 else none
  | .eos, s, caps, k =>
      match s with
      | [] => k [] caps
      | _ :: _ => none

/-- Embeds `re.search` scanning: earliest start position wins.  Returns the input
remaining after the match together with the captures. -/
def searchSplit (r : Rx) : List Char → Option (List Char × List String)
  | [] => mtch r [] [] fun s' caps => some (s', caps)
  | a :: t =>
    match mtch r (a :: t) [] (fun s' caps => some (s', caps)) with
    | some res => some res
    | none => searchSplit r t

/-- Embeds `re.search(pattern, s)`: the captures of the first match, if any. -/
def reSearch (r : Rx) (s : String) : Option (List String) :=
  (searchSplit r s.data).map Prod.snd

/-- Embeds `re.findall(pattern, s)`: the capture tuples of all non-overlapping
matches, scanning left to right.  `fuel` bounds the iteration (the caller
passes the string length plus one); an empty match advances one character,
like Python. -/
def findAllAux (r : Rx) : Nat → List Char → List (List String)
  | 0, _ => []
  | fuel + 1, s =>
    match searchSplit r s with
    | none => []
    | some (rest, caps) =>
      if rest.length < s.length then caps :: findAllAux r fuel rest
      else caps :: findAllAux r fuel (rest.drop 1)

/-- Embeds `re.findall(pattern, s)`. -/
def reFindAll (r : Rx) (s : String) : List (List String) :=
  findAllAux r (s.length + 1) s.data

/-! ## The chart-command fallback (`_parse_chart_command_fallback`) -/

/-- First pattern of a list that `re.search` matches; its captures. -/
def firstSearch : List Rx → String → Option (List String)
  | [], _ => none
  | p :: ps, s =>
    match reSearch p s with
    | some caps => some caps
    | none => firstSearch ps s

/-- Embeds `author_patterns` (the five single-name patterns). -/
def chartAuthorPatterns : List Rx :=
  [ rxSeq [.grp (.plusG .word), rxStr "의", .starG .space,
           rxAlt [rxStr "데이터", rxStr "값", rxStr "수치", rxStr "글"]],
    rxSeq [.grp (.plusG .word), .starG .space, rxStr "작성자"],
    rxSeq [.grp (.plusG .word), .starG .space, rxStr "님"],
    rxSeq [.cls (.lit '"'), .grp (.plusG (.noneOf ['"'])), .cls (.lit '"')],
    rxSeq [.cls (.lit quoteChar), .grp (.plusG (.noneOf [quoteChar])),
           .cls (.lit quoteChar)] ]

/-- Embeds `all_authors_patterns`. -/
def allAuthorsPatterns : List Rx :=
  [ rxSeq [rxStr "모든", .starG .space, rxStr "사람", .opt (.cls (.lit '들'))],
    rxSeq [rxStr "전체", .starG .space,
           rxAlt [rxSeq [rxStr "사람", .opt (.cls (.lit '들'))],
                  rxStr "작성자", rxStr "데이터"]],
    rxSeq [rxStr "모든", .starG .space, rxStr "작성자"],
    rxSeq [rxStr "모두",
           .opt (rxAlt [rxSeq [.starG .space, rxStr "데이터"], rxStr "의"])],
    rxSeq [rxStr "전부",
           .opt (rxAlt [rxSeq [.starG .space, rxStr "데이터"], rxStr "의"])] ]

/-- Does any of the `all_authors_patterns` match?  (The loop in the source
sets `author_names = "ALL_AUTHORS"` and breaks on the first hit.) -/
def anyAllAuthorsHit (s : String) : Bool :=
  allAuthorsPatterns.any fun p => (reSearch p s).isSome

/-- Embeds `multi_author_patterns`, first: `(\w+)(?:과|와|,)\s*(\w+)`. -/
def multiAuthorP1 : Rx :=
  rxSeq [.grp (.plusG .word), rxAlt [rxStr "과", rxStr "와", rxStr ","],
         .starG .space, .grp (.plusG .word)]

/-- Embeds `multi_author_patterns`, second: `(\w+)\s+(\w+)(?:\s+데이터|의)`. -/
def multiAuthorP2 : Rx :=
  rxSeq [.grp (.plusG .word), .plusG .space, .grp (.plusG .word),
         rxAlt [rxSeq [.plusG .space, rxStr "데이터"], rxStr "의"]]

/-- Embeds `chart_type_keywords`, in dict insertion order. -/
def chartTypeTable : List (String × List String) :=
  [("line", ["선그래프", "라인", "선형", "꺾은선"]),
   ("pie", ["원그래프", "파이", "원형"]),
   ("doughnut", ["도넛", "도너츠"]),
   ("bar", ["막대", "바", "막대그래프", "바차트"])]

/-- The chart-type scan: first type (in table order) one of whose keywords
occurs in the command (or its lower-cased form) wins; default `"bar"`. -/
def chartTypeOf (command commandLower : String) : String :=
  match chartTypeTable.find? (fun p =>
      p.snd.any fun kw => strIn kw command || strIn kw commandLower) with
  | some p => p.fst
  | none => "bar"

/-- The value the fallback stores in `author_names`: either the sentinel
string `"ALL_AUTHORS"` or a Python list of names. -/
inductive PyAuthors where
  | all
  | names (l : List String)
deriving DecidableEq

/-- Python truthiness of the `author_names` value (`"ALL_AUTHORS"` is a
nonempty string, hence truthy). -/
def PyAuthors.truthy : PyAuthors → Bool
  | .all => true
  | .names l => !l.isEmpty

/-- The dict returned by `_parse_chart_command_fallback`. -/
structure ChartParseResult where
  author_names : Option PyAuthors
  author_name : Option String
  chart_type : String
  valid : Bool
  confidence : ℚ
  explanation : String
  method : String
  original_command : String
  is_multi_author : Bool
deriving DecidableEq

/-- Embeds `RealMCPServer._parse_chart_command_fallback(command)`.  (The
`try` of the body can only fail through the `re` module, which does not raise on these
fixed patterns, so the `except` branch of the source is unreachable.) -/
def parseChartFallback (command0 : String) : ChartParseResult :=
  let command := pyStrip command0
  -- The source first extracts a single author name with `author_patterns`;
  -- that value is never used by the returned dict (it is superseded by
  -- `single_author` below), so it is bound here only for fidelity.
  let _deadAuthorName := firstSearch chartAuthorPatterns command
  let chartType := chartTypeOf command (pyLower command)
  let avPair : PyAuthors × Bool :=
    if anyAllAuthorsHit command then (.all, true)
    else
      let tuples :=
        match reFindAll multiAuthorP1 command with
        | [] => reFindAll multiAuthorP2 command
        | ms => ms
      let names := tuples.flatMap fun tup =>
        (tup.map pyStrip).filter fun x => x != ""
      if names.isEmpty then (.names names, false)
      else
        let d := dedupKeepFirst names
        (.names d, d.length > 1)
  let authorsVal := avPair.1
  let isMulti := avPair.2
  let singleAuthor : Option String :=
    match authorsVal with
    | .all => none
    | .names l => if l.length == 1 then l.head? else none
  { author_names := if authorsVal.truthy then some authorsVal else none
    author_name := singleAuthor
    chart_type := chartType
    valid := authorsVal.truthy
    confidence := if authorsVal.truthy then 4/5 else 0
    explanation := "정규표현식으로 파싱됨"
    method := "regex_fallback"
    original_command := command
    is_multi_author := isMulti }

/-! ## The post-management fallback (`_parse_post_command_fallback`) -/

/-- Numeric value of a digit string. -/
def digitsToNat (l : List Char) : Nat :=
  l.foldl (fun acc c => acc * 10 + (c.toNat - 48)) 0

/-- Python `int(...)` on a `\d+` capture. -/
def pyIntOfDigits (s : String) : ℤ := (digitsToNat s.data : ℤ)

/-- Is every character an ASCII digit? -/
def allDigits (s : String) : Bool := s.data.all fun c => '0' ≤ c && c ≤ '9'

/-- Python `float(...)` on a `[\d.]+` capture: at most one dot and at least
one digit, otherwise a `ValueError` (`none`). -/
def parsePyFloat (s : String) : Option ℚ :=
  match s.split (· == '.') with
  | [a] =>
    if a != "" && allDigits a then some (digitsToNat a.data : ℚ) else none
  | [a, b] =>
    if (a != "" || b != "") && allDigits a && allDigits b then
      some ((digitsToNat a.data : ℚ) + (digitsToNat b.data : ℚ) / 10 ^ b.length)
    else none
  | _ => none

/-- Embeds `create_patterns`. -/
def createPatterns : List Rx :=
  [ rxSeq [.grp (.plusL .dot), rxAlt [rxStr "으로", rxStr "로"], .starG .space,
           .opt (rxSeq [rxStr "새", .starG .space]), rxStr "게시글",
           .starG .space, rxStr "작성"],
    rxSeq [.grp (.plusL .dot), .starG .space, rxStr "게시글", .starG .space,
           rxAlt [rxStr "추가", rxStr "생성", rxStr "작성"]],
    rxSeq [rxStr "새", .starG .space, rxStr "게시글", .starL .dot,
           rxStr "작성자",
           .opt (rxAlt [rxSeq [.starG .space, .cls (.lit ':')],
                        rxSeq [.starG .space, rxStr "는"]]),
           .starG .space, .grp (.plusL .dot),
           rxAlt [.cls .space, .eos]],
    rxSeq [rxStr "게시글", .starG .space,
           rxAlt [rxStr "추가", rxStr "생성", rxStr "작성"], .starL .dot,
           .grp (.plusL .dot), rxAlt [rxStr "으로", rxStr "로"]] ]

/-- Embeds `title_patterns` inside the create branch. -/
def titlePatterns : List Rx :=
  [ rxSeq [rxStr "제목",
           .opt (rxAlt [rxSeq [.starG .space, .cls (.lit ':')],
                        rxSeq [.starG .space, rxStr "은"],
                        rxSeq [.starG .space, rxStr "는"]]),
           .starG .space, .cls (.oneOf [quoteChar, '"']),
           .grp (.plusG (.noneOf [quoteChar, '"'])),
           .cls (.oneOf [quoteChar, '"'])],
    rxSeq [rxStr "제목",
           .opt (rxAlt [rxSeq [.starG .space, .cls (.lit ':')],
                        rxSeq [.starG .space, rxStr "은"],
                        rxSeq [.starG .space, rxStr "는"]]),
           .starG .space, .grp (.plusL .dot),
           rxAlt [rxSeq [.starG .space, .cls (.lit ',')],
                  rxSeq [.starG .space, rxStr "내용"],
                  rxSeq [.starG .space, .eos]]] ]

/-- Embeds `content_patterns` inside the create branch. -/
def contentPatterns : List Rx :=
  [ rxSeq [rxStr "내용",
           .opt (rxAlt [rxSeq [.starG .space, .cls (.lit ':')],
                        rxSeq [.starG .space, rxStr "은"],
                        rxSeq [.starG .space, rxStr "는"]]),
           .starG .space, .cls (.oneOf [quoteChar, '"']),
           .grp (.plusG (.noneOf [quoteChar, '"'])),
           .cls (.oneOf [quoteChar, '"'])],
    rxSeq [rxStr "내용",
           .opt (rxAlt [rxSeq [.starG .space, .cls (.lit ':')],
                        rxSeq [.starG .space, rxStr "은"],
                        rxSeq [.starG .space, rxStr "는"]]),
           .starG .space, .grp (.plusL .dot),
           rxAlt [rxSeq [.starG .space, .cls (.lit ',')],
                  rxSeq [.starG .space, rxStr "수치"],
                  rxSeq [.starG .space, .eos]]] ]

/-- Embeds `수치(값)?(\s*:|\s*은|\s*는)?\s*([\d.]+)`. -/
def numericPattern : Rx :=
  rxSeq [rxStr "수치", .opt (rxStr "값"),
         .opt (rxAlt [rxSeq [.starG .space, .cls (.lit ':')],
                      rxSeq [.starG .space, rxStr "은"],
                      rxSeq [.starG .space, rxStr "는"]]),
         .starG .space,
         .grp (.plusG (.oneOf ['0','1','2','3','4','5','6','7','8','9','.']))]

/-- Embeds `update_patterns`. -/
def updatePatterns : List Rx :=
  [ rxSeq [.grp (.plusG .digit), rxStr "번", .starG .space, rxStr "게시글",
           .starL .dot, .grp (rxAlt [rxStr "제목", rxStr "내용", rxStr "작성자"]),
           .opt (rxAlt [rxSeq [.starG .space, rxStr "을"],
                        rxSeq [.starG .space, rxStr "를"]]),
           .starG .space, .opt (.cls (.oneOf [quoteChar, '"'])),
           .grp (.plusG (.noneOf [quoteChar, '"'])),
           .opt (.cls (.oneOf [quoteChar, '"'])),
           rxAlt [rxStr "으로", rxStr "로"], .starG .space,
           rxAlt [rxStr "바꿔", rxStr "수정", rxStr "변경"]],
    rxSeq [.grp (.plusG .digit), rxStr "번", .starL .dot,
           .grp (rxAlt [rxStr "제목", rxStr "내용", rxStr "작성자"]),
           .starG .space, rxAlt [rxStr "수정", rxStr "변경", rxStr "바꿔"],
           .starL .dot, .opt (.cls (.oneOf [quoteChar, '"'])),
           .grp (.plusG (.noneOf [quoteChar, '"'])),
           .opt (.cls (.oneOf [quoteChar, '"']))] ]

/-- Embeds `(\d+)번\s*게시글\s*삭제`. -/
def deleteP1 : Rx :=
  rxSeq [.grp (.plusG .digit), rxStr "번", .starG .space, rxStr "게시글",
         .starG .space, rxStr "삭제"]

/-- Embeds `게시글\s*(\d+)\s*삭제`. -/
def deleteP2 : Rx :=
  rxSeq [rxStr "게시글", .starG .space, .grp (.plusG .digit), .starG .space,
         rxStr "삭제"]

/-- Embeds `(.+?)(?:의)?\s*(?:모든\s*)?게시글\s*(?:모두\s*)?삭제`. -/
def deleteP3 : Rx :=
  rxSeq [.grp (.plusL .dot), .opt (rxStr "의"), .starG .space,
         .opt (rxSeq [rxStr "모든", .starG .space]), rxStr "게시글",
         .starG .space, .opt (rxSeq [rxStr "모두", .starG .space]),
         rxStr "삭제"]

/-- Embeds `게시글\s*(?:목록|리스트)\s*(?:보여|표시)`. -/
def listP1 : Rx :=
  rxSeq [rxStr "게시글", .starG .space, rxAlt [rxStr "목록", rxStr "리스트"],
         .starG .space, rxAlt [rxStr "보여", rxStr "표시"]]

/-- Embeds `(.+?)(?:의)?\s*게시글\s*(?:보여|표시|목록)`. -/
def listP2 : Rx :=
  rxSeq [.grp (.plusL .dot), .opt (rxStr "의"), .starG .space, rxStr "게시글",
         .starG .space, rxAlt [rxStr "보여", rxStr "표시", rxStr "목록"]]

/-- The dict returned by `_parse_post_command_fallback`. -/
structure PostParseResult where
  action : Option String
  post_id : Option ℤ
  author : Option String
  title : Option String
  content : Option String
  numeric_value : Option ℚ
  category : Option String
  field_to_update : Option String
  new_value : Option String
  filter_author : Option String
  valid : Bool
  confidence : ℚ
  explanation : String
  method : String
  original_command : String
deriving DecidableEq

/-- Embeds `RealMCPServer._parse_post_command_fallback(command)`.  The base result
carries `confidence = 0.7` and `valid = False`; the four action stages are
tried in order create → update → delete → list, each entered only if the
previous ones left `valid` false.  (The `command_lower` local of the source
is dead, and its `except` branch is unreachable: `int()` is applied to
`\d+` captures only and the one `float()` failure is swallowed locally.) -/
def parsePostFallback (command : String) : PostParseResult :=
  let base : PostParseResult :=
    { action := none, post_id := none, author := none, title := none,
      content := none, numeric_value := none, category := none,
      field_to_update := none, new_value := none, filter_author := none,
      valid := false, confidence := 7/10,
      explanation := "정규표현식으로 파싱됨", method := "regex_fallback",
      original_command := command }
  match firstSearch createPatterns command with
  | some caps =>
    let r1 := { base with
      action := some "create"
      author := some (pyStrip (caps.headD ""))
      valid := true }
    let r2 :=
      match firstSearch titlePatterns command with
      | some t => { r1 with title := some (pyStrip (t.headD "")) }
      | none => r1
    let r3 :=
      match firstSearch contentPatterns command with
      | some t => { r2 with content := some (pyStrip (t.headD "")) }
      | none => r2
    match reSearch numericPattern command with
    | some caps2 =>
      match parsePyFloat (caps2.headD "") with
      | some q => { r3 with numeric_value := some q }
      | none => r3
    | none => r3
  | none =>
    match firstSearch updatePatterns command with
    | some caps =>
      { base with
        action := some "update"
        post_id := some (pyIntOfDigits (caps.getD 0 ""))
        field_to_update := some (caps.getD 1 "")
        new_value := some (pyStrip (caps.getD 2 ""))
        valid := true }
    | none =>
      match reSearch deleteP1 command with
      | some caps =>
        { base with
          action := some "delete"
          post_id := some (pyIntOfDigits (caps.headD ""))
          valid := true }
      | none =>
        match reSearch deleteP2 command with
        | some caps =>
          { base with
            action := some "delete"
            post_id := some (pyIntOfDigits (caps.headD ""))
            valid := true }
        | none =>
          match reSearch deleteP3 command with
          | some caps =>
            { base with
              action := some "delete"
              filter_author := some (pyStrip (caps.headD ""))
              valid := true }
          | none =>
            match reSearch listP1 command with
            | some _ => { base with action := some "list", valid := true }
            | none =>
              match reSearch listP2 command with
              | some caps =>
                let g := pyStrip (caps.headD "")
                { base with
                  action := some "list"
                  valid := true
                  filter_author :=
                    if g != "모든" && g != "전체" then some g else none }
              | none => base

/-! ## The AI-reply handling of `parse_chart_command_with_ai` -/

/-- The dict built from a successfully decoded AI reply (lines 227-252 of
`mcp_server_real.py`).  Fields the code passes through unvalidated keep
the dynamic `JValue` type. -/
structure AIChartParsed where
  author_names : JValue
  author_name : JValue
  chart_type : JValue
  valid : JValue
  confidence : JValue
  explanation : JValue
  method : String
  original_command : String
  is_multi_author : JValue

/-- The result-construction step of `parse_chart_command_with_ai` applied
to a decoded JSON object `parsed`.  Note `confidence` is
`parsed_result.get("confidence", 0.5)`: the self-reported value is passed
through verbatim, with no clamping. -/
def extractChartAIResult (parsed : JValue) (command : String) : AIChartParsed :=
  let authorNames := (parsed.get "author_names").getD .null
  let authorName := (parsed.get "author_name").getD .null
  let isMultiAuthor := (parsed.get "is_multi_author").getD (.bool false)
  let (finalAuthors, finalSingle) : JValue × JValue :=
    if isMultiAuthor.truthy && authorNames.truthy then (authorNames, .null)
    else if authorName.truthy then (.arr [authorName], authorName)
    else (.null, .null)
  { author_names := finalAuthors
    author_name := finalSingle
    chart_type := (parsed.get "chart_type").getD (.str "bar")
    valid := (parsed.get "valid").getD (.bool false)
    confidence := (parsed.get "confidence").getD (.num (1/2))
    explanation := (parsed.get "explanation").getD (.str "AI가 분석한 결과")
    method := "ai_powered"
    original_command := command
    is_multi_author := isMultiAuthor }

/-- The confidence rule of the spec, stated from its words for comparison:
confidence is taken from the self-reported value of the model, clamped to
[0,1]. -/
def specClamp01 (q : ℚ) : ℚ := max 0 (min 1 q)

/-! ## The chart endpoint (`app.py`, `create_chart`) in simulation mode -/

/-- Responses of the `/generate-chart` handler: a 400 `JSONResponse` with a
message, or `JSONResponse(content=result)` with a dispatch result.  (The
surrounding `try` also has a 500 branch; the embedded pipeline is total,
so it does not arise.) -/
inductive CreateChartResponse where
  | badRequest (message : String)
  | ok (result : ChartGenResult)
deriving DecidableEq

/-- Embeds `create_chart(request)` with an unconfigured API key: the parse step is
`parse_chart_command_with_ai`, which immediately falls back to
`_parse_chart_command_fallback`. `step` and `elapsed` feed the dispatch as
in `generateAuthorChart`.  (In the unreachable case of a valid intent with
no `author_name`, Python would pass `None`; the embedding passes `""`.) -/
def createChartSim (db : List Post) (step : ChartStep) (elapsed : ℚ)
    (command0 : String) : CreateChartResponse :=
  let command := pyStrip command0
  if command == "" then .badRequest "명령어를 입력해주세요."
  else
    let parsed := parseChartFallback command
    if !parsed.valid then
      .badRequest ("작성자명을 찾을 수 없습니다. 예: \x27홍길동의 데이터를 차트로 보여줘\x27 또는 \x27홍길동과 김철수의 데이터를 차트로 보여줘\x27\\n사용 가능한 작성자: "
        ++ joinAuthors (authorsWithNumericData db))
    else
      match parsed.is_multi_author, parsed.author_names with
      | true, some .all =>
        let allAuthors := authorsWithNumericData db
        if allAuthors.isEmpty then .badRequest "데이터베이스에 작성자가 없습니다."
        else .ok (generateMultiAuthorChart db step false elapsed allAuthors
                    parsed.chart_type).1
      | true, some (.names l) =>
        .ok (generateMultiAuthorChart db step false elapsed l parsed.chart_type).1
      | _, _ =>
        .ok (generateAuthorChart db step false elapsed
               (parsed.author_name.getD "") parsed.chart_type).1

/-! ## The update handler (`app.py`, `_handle_update_post`) -/

/-- The update-relevant fields of a parsed post-management intent. -/
structure UpdateIntent where
  post_id : Option ℤ
  field_to_update : Option String
  new_value : Option String

/-- The dict returned by the post-management handlers (keys absent from a
given return site are `none`). -/
structure ActionResult where
  success : Bool
  message : String
  status_code : Option Nat
  action : Option String
  post_id : Option ℤ
  field : Option String
  new_value : Option String
deriving DecidableEq

/-- Python truthiness of an optional int (`not post_id` is true for both
`None` and `0`). -/
def optIntTruthy : Option ℤ → Bool
  | none => false
  | some i => i != 0

/-- Python truthiness of an optional string. -/
def optStrTruthy : Option String → Bool
  | none => false
  | some s => s != ""

/-- The validation-failure response of `_handle_update_post`. -/
def updateValidationFail : ActionResult :=
  { success := false
    message := "게시글 수정에는 게시글 ID, 수정할 필드, 새로운 값이 필요합니다."
    status_code := some 400, action := none, post_id := none, field := none,
    new_value := none }

/-- The tail of `_handle_update_post` once a concrete `update_post` call has
been chosen: report success, or the 500 failure. -/
def finishUpdate (db : List Post) (pid : ℤ) (fld nv : String)
    (title content author : String) : ActionResult × List Post :=
  let (ok, db') := updatePostDb db pid title content author
  if ok then
    ({ success := true
       message := toString pid ++ "번 게시글의 " ++ fld
         ++ "이(가) 성공적으로 수정되었습니다."
       status_code := none, action := some "update", post_id := some pid,
       field := some fld, new_value := some nv }, db')
  else
    ({ success := false, message := "게시글 수정에 실패했습니다."
       status_code := some 500, action := none, post_id := none, field := none,
       new_value := none }, db')

/-- Embeds `_handle_update_post(parsed_result)`, also returning the store state
after the dispatch.  The guard `if not post_id or not field_to_update or
new_value is None` is Python truthiness on the first two fields but an
`is None` test on the third. -/
def handleUpdatePost (db : List Post) (u : UpdateIntent) :
    ActionResult × List Post :=
  if !optIntTruthy u.post_id || !optStrTruthy u.field_to_update
      || u.new_value.isNone then
    (updateValidationFail, db)
  else
    match u.post_id, u.field_to_update, u.new_value with
    | some pid, some fld, some nv =>
      match getPostById db pid with
      | none =>
        ({ success := false
           message := toString pid ++ "번 게시글을 찾을 수 없습니다."
           status_code := some 404, action := none, post_id := none,
           field := none, new_value := none }, db)
      | some p =>
        if fld == "title" || fld == "제목" then
          finishUpdate db pid fld nv nv p.content p.author
        else if fld == "content" || fld == "내용" then
          finishUpdate db pid fld nv p.title nv p.author
        else if fld == "author" || fld == "작성자" then
          finishUpdate db pid fld nv p.title p.content nv
        else
          ({ success := false
             message := "지원하지 않는 필드입니다: " ++ fld
               ++ ". 사용 가능한 필드: title, content, author"
             status_code := some 400, action := none, post_id := none,
             field := none, new_value := none }, db)
    | _, _, _ => (updateValidationFail, db)

/-! ## Concrete fixtures used by witnesses and counterexamples -/

/-- A system log entry, as written at server start. -/
def entryEx1 : MCPLogEntry :=
  { timestamp := "10:00:00.000", level := .info, category := "system",
    message := "서버 시작 - 시뮬레이션 모드", details := none, duration_ms := none }

/-- A chart-generation log entry. -/
def entryEx2 : MCPLogEntry :=
  { timestamp := "10:00:01.000", level := .success, category := "chart_generation",
    message := "bar 차트 생성 성공 (작성자: 홍길동)", details := none,
    duration_ms := some 12 }

/-- A quiescent logger holding two entries. -/
def loggerEx : MCPLogger :=
  { max_logs := 100, logs := [entryEx1, entryEx2], locked := false }

/-- Three distinct `record` calls. -/
def callA : LogCall :=
  { ts := "10:01:00.000"
    payload := { level := .info, category := "api_call",
                 message := "generate_author_chart API 호출", details := none,
                 duration_ms := none } }

/-- Second `record` call. -/
def callB : LogCall :=
  { ts := "10:01:00.100"
    payload := { level := .success, category := "parsing",
                 message := "명령어 파싱 완료", details := none,
                 duration_ms := some 3 } }

/-- Third `record` call. -/
def callC : LogCall :=
  { ts := "10:01:00.200"
    payload := { level := .error, category := "system",
                 message := "오류 발생: 테스트", details := none,
                 duration_ms := none } }

/-- A three-row store as produced by `init_sample_data`-style inserts. -/
def dbEx : List Post :=
  [ { id := 1, author := "홍길동", title := "1월 매출 보고",
      content := "1월 매출 데이터입니다.", numeric_value := some (301/2),
      category := some "매출", created_at := "t1" },
    { id := 2, author := "김철수", title := "사용자 수 증가",
      content := "월별 사용자 수 현황", numeric_value := some 1200,
      category := some "사용자", created_at := "t2" },
    { id := 3, author := "김철수", title := "메모", content := "숫자 없음",
      numeric_value := none, category := none, created_at := "t3" } ]

/-- The second row of `dbEx`. -/
def postEx2 : Post :=
  { id := 2, author := "김철수", title := "사용자 수 증가",
    content := "월별 사용자 수 현황", numeric_value := some 1200,
    category := some "사용자", created_at := "t2" }

/-- A store where author `"가"` has one numeric-valued row and author
`"나"` exists but has no numeric-valued row. -/
def dbEx2 : List Post :=
  [ { id := 1, author := "가", title := "T1", content := "c",
      numeric_value := some 10, category := none, created_at := "t1" },
    { id := 2, author := "나", title := "T2", content := "c",
      numeric_value := none, category := none, created_at := "t2" } ]

/-- An AI reply whose self-reported confidence is 1.5, above the unit
interval. -/
def aiReplyEx : JValue :=
  .obj [("author_name", .str "홍길동"), ("chart_type", .str "bar"),
        ("valid", .bool true), ("confidence", .num (3/2)),
        ("is_multi_author", .bool false)]

/-- The reading of the claim that "the returned result notes that author
in its metadata": an author can only be noted (as excluded or otherwise)
in the metadata of the result if its name occurs in one of the metadata fields —
message, method, the `authors` list, or the summary. -/
def mentionsInChartResult (r : ChartGenResult) (name : String) : Bool :=
  strIn name r.message || strIn name r.method
  || (r.authors.getD []).any (fun a => strIn name a)
  || (match r.summary with
      | some (.multi ms) =>
        ms.authors.any (fun a => strIn name a)
        || ms.author_breakdown.any (fun p => strIn name p.fst)
      | some (.single s) => strIn name s.author
      | none => false)

/-! ## Helper lemmas -/

/-- Folding `logStep` over a sequence of entries. -/
def foldLogs (n : Nat) (l : List MCPLogEntry) (es : List MCPLogEntry) :
    List MCPLogEntry :=
  es.foldl (logStep n) l

/-- Trailing-whitespace strip on a character list. -/
def rstripChars (l : List Char) : List Char :=
  (l.reverse.dropWhile isSpaceChar).reverse

theorem drop_append_of_le {α : Type _} :
    ∀ (l : List α) (r : List α) (n : Nat), n ≤ l.length →
      (l ++ r).drop n = l.drop n ++ r := by
  intro l
  induction l with
  | nil =>
    intro r n h
    have h0 : n = 0 := by simpa using h
    simp [h0]
  | cons a t ih =>
    intro r n h
    cases n with
    | zero => simp
    | succ m => simpa using ih r m (by simpa using h)

theorem takeLast_append_one {α : Type _} (n : Nat) (hn : 1 ≤ n) (p : List α)
    (e : α) : takeLast n (takeLast n p ++ [e]) = takeLast n (p ++ [e]) := by
  unfold takeLast
  rcases le_or_lt p.length n with h | h
  · have h0 : p.length - n = 0 := by omega
    simp [h0]
  · have hlen : (p.drop (p.length - n)).length = n := by
      rw [List.length_drop]; omega
    have hL : (p.drop (p.length - n) ++ [e]).length = n + 1 := by
      rw [List.length_append, hlen]; rfl
    have hR : (p ++ [e]).length = p.length + 1 := by simp
    rw [hL, hR]
    have e1 : n + 1 - n = 1 := by omega
    have e2 : p.length + 1 - n = (p.length - n) + 1 := by omega
    rw [e1, e2]
    rw [drop_append_of_le _ _ 1 (by rw [hlen]; exact hn)]
    rw [drop_append_of_le _ _ _ (by omega)]
    rw [List.drop_drop]

/-- One append against a logger with positive capacity keeps exactly the
last `n` entries of the extended buffer. -/
theorem logStep_eq_takeLast (n : Nat) (hn : 1 ≤ n) (l : List MCPLogEntry)
    (e : MCPLogEntry) : logStep n l e = takeLast n (l ++ [e]) := by
  show (if (l ++ [e]).length > n then pySliceLast n (l ++ [e]) else (l ++ [e]))
      = takeLast n (l ++ [e])
  by_cases h : (l ++ [e]).length > n
  · rw [if_pos h]
    unfold pySliceLast
    rw [if_neg (by omega)]
  · rw [if_neg h]
    unfold takeLast
    have h0 : (l ++ [e]).length - n = 0 := by omega
    rw [h0]
    rfl

theorem foldLogs_takeLast (n : Nat) (hn : 1 ≤ n) :
    ∀ (es : List MCPLogEntry) (p : List MCPLogEntry),
      foldLogs n (takeLast n p) es = takeLast n (p ++ es) := by
  intro es
  induction es with
  | nil => intro p; simp [foldLogs]
  | cons e es ih =>
    intro p
    show foldLogs n (logStep n (takeLast n p) e) es = takeLast n (p ++ e :: es)
    rw [logStep_eq_takeLast n hn, takeLast_append_one n hn]
    rw [ih (p ++ [e])]
    simp

theorem foldLogs_nil_takeLast (n : Nat) (hn : 1 ≤ n) (es : List MCPLogEntry) :
    foldLogs n [] es = takeLast n es := by
  have h := foldLogs_takeLast n hn es []
  simpa [takeLast] using h

/-- A sequence of appends against an unlocked logger always succeeds and is
the fold of the single-append step. -/
theorem logMany_unlocked :
    ∀ (calls : List LogCall) (lg : MCPLogger), lg.locked = false →
      logMany lg calls
        = some { lg with logs := foldLogs lg.max_logs lg.logs (calls.map mkEntry) } := by
  intro calls
  induction calls with
  | nil => intro lg h; simp [logMany, foldLogs]
  | cons c cs ih =>
    intro lg h
    rw [logMany, MCPLogger.log]
    simp only [h, Bool.false_eq_true, if_false, Option.bind_eq_bind,
      Option.some_bind]
    rw [ih _ (by simp [h])]
    rfl

theorem dropWhile_dropWhile {α : Type _} (p : α → Bool) (l : List α) :
    (l.dropWhile p).dropWhile p = l.dropWhile p := by
  induction l with
  | nil => rfl
  | cons a t ih =>
    by_cases h : p a = true
    · simp [List.dropWhile_cons, h, ih]
    · simp [List.dropWhile_cons, h]

theorem rstrip_exists_append (l : List Char) : ∃ u, l = rstripChars l ++ u := by
  refine ⟨(l.reverse.takeWhile isSpaceChar).reverse, ?_⟩
  unfold rstripChars
  conv_lhs => rw [← l.reverse_reverse,
    ← List.takeWhile_append_dropWhile (p := isSpaceChar) (l := l.reverse)]
  rw [List.reverse_append]

theorem dropWhile_length_le {α : Type _} (p : α → Bool) (l : List α) :
    (l.dropWhile p).length ≤ l.length := by
  induction l with
  | nil => simp
  | cons a t ih =>
    by_cases h : p a = true
    · rw [List.dropWhile_cons, if_pos h]
      exact Nat.le_succ_of_le ih
    · simp [List.dropWhile_cons, h]

theorem dropWhile_eq_self_head {p : Char → Bool} {a : Char} {t : List Char}
    (h : List.dropWhile p (a :: t) = a :: t) : p a = false := by
  by_cases hp : p a = true
  · rw [List.dropWhile_cons, if_pos hp] at h
    have hlen := congrArg List.length h
    have hle := dropWhile_length_le p t
    simp at hlen
    omega
  · simpa using hp

theorem dropWhile_rstrip {l : List Char}
    (h : List.dropWhile isSpaceChar l = l) :
    List.dropWhile isSpaceChar (rstripChars l) = rstripChars l := by
  cases hr : rstripChars l with
  | nil => rfl
  | cons a t =>
    obtain ⟨u, hu⟩ := rstrip_exists_append l
    rw [hr] at hu
    have hl : l = a :: (t ++ u) := by simpa using hu
    have h2 : List.dropWhile isSpaceChar (a :: (t ++ u)) = a :: (t ++ u) := by
      rw [← hl]; exact h
    have hfa : isSpaceChar a = false := dropWhile_eq_self_head h2
    simp [List.dropWhile_cons, hfa]

theorem rstrip_rstrip (l : List Char) :
    rstripChars (rstripChars l) = rstripChars l := by
  unfold rstripChars
  rw [List.reverse_reverse, dropWhile_dropWhile]

theorem stripChars_idem (l : List Char) :
    stripChars (stripChars l) = stripChars l := by
  have h1 : List.dropWhile isSpaceChar (l.dropWhile isSpaceChar)
      = l.dropWhile isSpaceChar := dropWhile_dropWhile _ _
  calc stripChars (stripChars l)
      = rstripChars (List.dropWhile isSpaceChar
          (rstripChars (l.dropWhile isSpaceChar))) := rfl
    _ = rstripChars (rstripChars (l.dropWhile isSpaceChar)) := by
          rw [dropWhile_rstrip h1]
    _ = rstripChars (l.dropWhile isSpaceChar) := rstrip_rstrip _
    _ = stripChars l := rfl

theorem pyStrip_idem (s : String) : pyStrip (pyStrip s) = pyStrip s := by
  show String.mk (stripChars (stripChars s.data)) = String.mk (stripChars s.data)
  rw [stripChars_idem]

theorem map_update_id (db : List Post) (pid : ℤ) (f : Post → Post)
    (h : ∀ p ∈ db, p.id ≠ pid) :
    (db.map fun q => if q.id = pid then f q else q) = db := by
  induction db with
  | nil => rfl
  | cons p rest ih =>
    have hp := h p (by simp)
    simp only [List.map_cons, if_neg hp]
    rw [ih fun q hq => h q (by simp [hq])]

theorem replaceFirst_eq_map (f : Post → Post) (pid : ℤ) (db : List Post)
    (hnd : (db.map Post.id).Nodup) :
    replaceFirst f pid db = db.map fun q => if q.id = pid then f q else q := by
  induction db with
  | nil => rfl
  | cons p rest ih =>
    rw [List.map_cons, List.nodup_cons] at hnd
    obtain ⟨hmem, hnd'⟩ := hnd
    by_cases h : p.id = pid
    · simp only [replaceFirst, List.map_cons]
      rw [if_pos (by simpa using h), if_pos h]
      congr 1
      symm
      apply map_update_id
      intro q hq hqe
      refine hmem ?_
      rw [h]
      exact List.mem_map.mpr ⟨q, hq, hqe⟩
    · simp only [replaceFirst, List.map_cons]
      rw [if_neg (by simpa using h), if_neg h, ih hnd']

theorem any_of_getPostById (db : List Post) (pid : ℤ) (p : Post)
    (h : getPostById db pid = some p) :
    (db.any fun q => q.id == pid) = true := by
  unfold getPostById at h
  have h1 := List.find?_some h
  have h2 := List.mem_of_find?_eq_some h
  exact List.any_eq_true.mpr ⟨p, h2, h1⟩

theorem updatePostDb_found (db : List Post) (pid : ℤ) (t c a : String)
    (p : Post) (hnd : (db.map Post.id).Nodup)
    (hfind : getPostById db pid = some p) :
    updatePostDb db pid t c a
      = (true, db.map fun q =>
          if q.id = pid then { q with title := t, content := c, author := a }
          else q) := by
  unfold updatePostDb
  rw [if_pos (any_of_getPostById db pid p hfind)]
  rw [replaceFirst_eq_map _ _ _ hnd]

/-! ## Claims -/

/-- Claim C2 (status: code_bug).  The claim states that the clear
operation of the Audit Logger terminates and leaves exactly one confirming entry in the
buffer.  The code cannot do so: `clear_logs` acquires the non-reentrant
`asyncio.Lock`, clears the buffer, and then awaits `self.log(...)`, which
tries to acquire the same lock and therefore waits forever.  Evaluating
the embedded operation on a concrete quiescent two-entry logger yields
`none`: the deadlocked call never produces a post-state. -/
theorem claim2_clear_deadlocks : loggerEx.clearLogs "12:00:00.000" = none := rfl

/-- Claim C9 (status: confirmed).  Reading the Audit Logger with
`limit = 0` is identical to reading it with no limit — every stored entry
is returned, not an empty list — because `get_logs` tests `if limit`
(Python truthiness), under which `0` means "no limit". -/
theorem claim9_zero_limit_reads_all (lg : MCPLogger) :
    lg.getLogs (some 0) = lg.getLogs none
    ∧ (lg.locked = false →
        lg.getLogs (some 0) = some (lg.logs.map MCPLogEntry.toDict)) := by
  constructor
  · simp [MCPLogger.getLogs]
  · intro h
    simp [MCPLogger.getLogs, h]

/-- Witness for C9 at a concrete logger. -/
theorem claim9_zero_limit_reads_all_witness :
    loggerEx.getLogs (some 0) = some (loggerEx.logs.map MCPLogEntry.toDict) :=
  (claim9_zero_limit_reads_all loggerEx).2 rfl

/-- Claim C10 (status: confirmed).  For an id with no stored record, the
store-level update and delete operations return `False` rather than
raising, and the store contents are unchanged: no record is created,
removed, or modified. -/
theorem claim10_missing_id_no_mutation (db : List Post) (pid : ℤ)
    (t c a : String) (h : ∀ p ∈ db, p.id ≠ pid) :
    updatePostDb db pid t c a = (false, db)
    ∧ deletePostDb db pid = (false, db) := by
  have hany : (db.any fun p => p.id == pid) = false := by
    rw [List.any_eq_false]
    intro p hp
    simpa using h p hp
  constructor
  · unfold updatePostDb
    rw [hany]
    rfl
  · unfold deletePostDb
    rw [hany]
    rfl

/-- Witness for C10: id 99 is absent from the three-row store. -/
theorem claim10_missing_id_no_mutation_witness :
    updatePostDb dbEx 99 "t" "c" "a" = (false, dbEx)
    ∧ deletePostDb dbEx 99 = (false, dbEx) :=
  claim10_missing_id_no_mutation dbEx 99 "t" "c" "a" (by decide)

/-- Claim C4, counterexample.  The claim states that the confidence of the
AI-backed parse is the self-reported value of the model clamped to [0,1].  The
code applies no clamp: a reply reporting confidence 1.5 yields a
`ParsedIntent` with confidence 1.5, which differs from the clamped value
(`specClamp01` renders the words of the spec). -/
theorem claim4_counterexample :
    (extractChartAIResult aiReplyEx "홍길동의 데이터를 차트로").confidence
      = .num (3/2)
    ∧ JValue.num (3/2) ≠ JValue.num (specClamp01 (3/2)) := by
  refine ⟨rfl, ?_⟩
  have h : specClamp01 (3/2) = 1 := by
    unfold specClamp01
    norm_num
  rw [h]
  simp only [ne_eq, JValue.num.injEq]
  norm_num

/-- Claim C4 as amended (status: corrected): the AI-backed chart parse
takes the numeric confidence field of the reply verbatim — with no clamping to
[0,1] — defaulting to 0.5 only when the field is absent. -/
theorem claim4_confidence_verbatim (parsed : JValue) (command : String)
    (c : ℚ) (h : parsed.get "confidence" = some (.num c)) :
    (extractChartAIResult parsed command).confidence = .num c := by
  unfold extractChartAIResult
  simp [h]

/-- Witness for the amended C4 at the concrete out-of-range reply. -/
theorem claim4_confidence_verbatim_witness :
    (extractChartAIResult aiReplyEx "홍길동의 데이터를 차트로").confidence
      = .num (3/2) :=
  claim4_confidence_verbatim aiReplyEx "홍길동의 데이터를 차트로" (3/2) rfl

/-- Claim C5, counterexample.  The claim states the pattern fallback
returns confidence exactly 0 when no entity was extracted.  For the
post-management grammar this fails: on input `"안녕"` no action pattern
matches (`valid = false`, `action = None`), yet the returned confidence is
the 0.7 of the base dict, not 0. -/
theorem claim5_counterexample :
    (parsePostFallback "안녕").valid = false
    ∧ (parsePostFallback "안녕").action = none
    ∧ (parsePostFallback "안녕").confidence = 7/10
    ∧ (7/10 : ℚ) ≠ 0 := by
  refine ⟨rfl, rfl, rfl, by norm_num⟩

/-- Claim C5 as amended (status: corrected): the chart-grammar fallback
returns the fixed constant 0.8 exactly when an author entity was extracted
(`valid = true`) and 0 otherwise; the post-management fallback returns the
fixed constant 0.7 on every input of its normal path, including inputs
from which no action was extracted. -/
theorem claim5_fallback_confidence (command : String) :
    ((parseChartFallback command).confidence
      = if (parseChartFallback command).valid then 4/5 else 0)
    ∧ (parsePostFallback command).confidence = 7/10 := by
  constructor
  · rfl
  · unfold parsePostFallback
    repeat' split
    all_goals rfl

theorem getLogs_none_unlocked (lg : MCPLogger) (h : lg.locked = false) :
    lg.getLogs none = some (lg.logs.map MCPLogEntry.toDict) := by
  simp [MCPLogger.getLogs, h]

/-- Claim C3, counterexample.  The claim quantifies over every capacity N;
for `N = 0` it fails: after one `record` call against a capacity-0 logger,
the trim `self.logs = self.logs[-0:]` keeps the whole buffer (`[-0:]` is
`[0:]` in Python), so an unlimited read returns 1 entry, not `N = 0`. -/
theorem claim3_counterexample :
    ((logMany (mkLogger 0) [callA]).bind fun lg => lg.getLogs none).map
        List.length = some 1
    ∧ (1 : Nat) ≠ 0 :=
  ⟨rfl, by decide⟩

/-- Claim C3 as amended (status: corrected): for every capacity `N ≥ 1`
(for `N = 0` the slice `[-0:]` disables trimming), after `N + k` record
calls (`k ≥ 1`) with no intervening clear, an unlimited read returns
exactly `N` entries, and they are the most recent `N` records in call
order. -/
theorem claim3_capacity_law (N k : Nat) (calls : List LogCall) (hN : 1 ≤ N)
    (hk : 1 ≤ k) (hlen : calls.length = N + k) :
    ∃ lg', logMany (mkLogger N) calls = some lg'
      ∧ lg'.getLogs none
          = some ((calls.drop k).map fun c => (mkEntry c).toDict)
      ∧ (calls.drop k).length = N := by
  have hfold : foldLogs N [] (calls.map mkEntry) = takeLast N (calls.map mkEntry) :=
    foldLogs_nil_takeLast N hN _
  have hdrop : takeLast N (calls.map mkEntry) = (calls.drop k).map mkEntry := by
    unfold takeLast
    rw [List.length_map, hlen]
    have he : N + k - N = k := by omega
    rw [he]
    simp [List.map_drop]
  refine ⟨_, logMany_unlocked calls (mkLogger N) rfl, ?_, ?_⟩
  · rw [getLogs_none_unlocked _ rfl]
    show some ((foldLogs N [] (calls.map mkEntry)).map MCPLogEntry.toDict) = _
    rw [hfold, hdrop, List.map_map]
    exact rfl
  · rw [List.length_drop, hlen]
    omega

/-- Witness for the amended C3: capacity 2, three calls, the last two
entries are returned. -/
theorem claim3_capacity_law_witness :
    ∃ lg', logMany (mkLogger 2) [callA, callB, callC] = some lg'
      ∧ lg'.getLogs none
          = some ((([callA, callB, callC] : List LogCall).drop 1).map
              fun c => (mkEntry c).toDict)
      ∧ (([callA, callB, callC] : List LogCall).drop 1).length = 2 :=
  claim3_capacity_law 2 1 [callA, callB, callC] (by decide) (by decide)
    (by decide)

/-- Claim C8 (status: confirmed).  An update dispatch naming one field of
{title, content, author} on an existing record mutates only that field:
the store afterwards is the pointwise map that rewrites exactly that field
of the row with the given id (so the other two of {title, content,
author}, and id, numeric_value, category, created_at, are untouched, and
all other rows are unchanged); an unknown field name yields a failure with
no mutation.  Hypotheses: row ids are unique (primary key), the record
exists, and its id is nonzero (autoincrement ids start at 1; `not post_id`
would otherwise reject the dispatch). -/
theorem claim8_update_single_field (db : List Post) (pid : ℤ) (nv : String)
    (p : Post) (hnd : (db.map Post.id).Nodup)
    (hfind : getPostById db pid = some p) (hpid : pid ≠ 0) :
    ((handleUpdatePost db ⟨some pid, some "title", some nv⟩).1.success = true
      ∧ (handleUpdatePost db ⟨some pid, some "title", some nv⟩).2
          = db.map fun q => if q.id = pid then { q with title := nv } else q)
    ∧ ((handleUpdatePost db ⟨some pid, some "content", some nv⟩).1.success = true
      ∧ (handleUpdatePost db ⟨some pid, some "content", some nv⟩).2
          = db.map fun q => if q.id = pid then { q with content := nv } else q)
    ∧ ((handleUpdatePost db ⟨some pid, some "author", some nv⟩).1.success = true
      ∧ (handleUpdatePost db ⟨some pid, some "author", some nv⟩).2
          = db.map fun q => if q.id = pid then { q with author := nv } else q)
    ∧ (∀ fld, fld ∉ (["title", "제목", "content", "내용", "author", "작성자"] : List String) →
        (handleUpdatePost db ⟨some pid, some fld, some nv⟩).1.success = false
        ∧ (handleUpdatePost db ⟨some pid, some fld, some nv⟩).2 = db) := by
  have hfind' : db.find? (fun q => q.id == pid) = some p := by
    unfold getPostById at hfind
    exact hfind
  have hqp : ∀ q ∈ db, q.id = pid → q = p := by
    intro q hq hqe
    have hpmem : p ∈ db := List.mem_of_find?_eq_some hfind'
    have hpe : p.id = pid := by simpa using List.find?_some hfind'
    exact List.inj_on_of_nodup_map hnd hq hpmem (by rw [hqe, hpe])
  have hpidT : optIntTruthy (some pid) = true := by
    simp [optIntTruthy, hpid]
  have hrun : ∀ fld t c a : String,
      finishUpdate db pid fld nv t c a
        = ({ success := true
             message := toString pid ++ "번 게시글의 " ++ fld
               ++ "이(가) 성공적으로 수정되었습니다."
             status_code := none, action := some "update", post_id := some pid,
             field := some fld, new_value := some nv },
           db.map fun q =>
             if q.id = pid then { q with title := t, content := c, author := a }
             else q) := by
    intro fld t c a
    unfold finishUpdate
    rw [updatePostDb_found db pid t c a p hnd hfind]
    rfl
  refine ⟨⟨?_, ?_⟩, ⟨?_, ?_⟩, ⟨?_, ?_⟩, ?_⟩
  · simp [handleUpdatePost, hpidT, optStrTruthy, hfind,
      hrun "title" nv p.content p.author]
  · simp [handleUpdatePost, hpidT, optStrTruthy, hfind,
      hrun "title" nv p.content p.author]
    intro q hq
    by_cases h : q.id = pid
    · rw [if_pos h, if_pos h, hqp q hq h]
    · rw [if_neg h, if_neg h]
  · simp [handleUpdatePost, hpidT, optStrTruthy, hfind,
      hrun "content" p.title nv p.author]
  · simp [handleUpdatePost, hpidT, optStrTruthy, hfind,
      hrun "content" p.title nv p.author]
    intro q hq
    by_cases h : q.id = pid
    · rw [if_pos h, if_pos h, hqp q hq h]
    · rw [if_neg h, if_neg h]
  · simp [handleUpdatePost, hpidT, optStrTruthy, hfind,
      hrun "author" p.title p.content nv]
  · simp [handleUpdatePost, hpidT, optStrTruthy, hfind,
      hrun "author" p.title p.content nv]
    intro q hq
    by_cases h : q.id = pid
    · rw [if_pos h, if_pos h, hqp q hq h]
    · rw [if_neg h, if_neg h]
  · intro fld hfld
    by_cases hfe : fld = ""
    · subst hfe
      constructor
      · simp [handleUpdatePost, optStrTruthy, updateValidationFail]
      · simp [handleUpdatePost, optStrTruthy]
    · have h1 : (fld == "title") = false := by
        simp only [beq_eq_false_iff_ne, ne_eq]
        intro h; exact hfld (by simp [h])
      have h2 : (fld == "제목") = false := by
        simp only [beq_eq_false_iff_ne, ne_eq]
        intro h; exact hfld (by simp [h])
      have h3 : (fld == "content") = false := by
        simp only [beq_eq_false_iff_ne, ne_eq]
        intro h; exact hfld (by simp [h])
      have h4 : (fld == "내용") = false := by
        simp only [beq_eq_false_iff_ne, ne_eq]
        intro h; exact hfld (by simp [h])
      have h5 : (fld == "author") = false := by
        simp only [beq_eq_false_iff_ne, ne_eq]
        intro h; exact hfld (by simp [h])
      have h6 : (fld == "작성자") = false := by
        simp only [beq_eq_false_iff_ne, ne_eq]
        intro h; exact hfld (by simp [h])
      constructor
      · simp [handleUpdatePost, hpidT, optStrTruthy, hfe, hfind, h1, h2, h3,
          h4, h5, h6]
      · simp [handleUpdatePost, hpidT, optStrTruthy, hfe, hfind, h1, h2, h3,
          h4, h5, h6]

/-- Witness for C8 at the concrete three-row store: rename the title of
row 2. -/
theorem claim8_update_single_field_witness :
    (handleUpdatePost dbEx ⟨some 2, some "title", some "새 제목"⟩).1.success = true
    ∧ (handleUpdatePost dbEx ⟨some 2, some "title", some "새 제목"⟩).2
        = dbEx.map fun q => if q.id = 2 then { q with title := "새 제목" } else q :=
  (claim8_update_single_field dbEx 2 "새 제목" postEx2 (by decide) (by decide)
    (by decide)).1

/-- Claim C1, counterexample.  The claim says every chart dispatch appends
exactly one audit record.  A successful single-author dispatch appends
three (`log_api_call`, `log_chart_generation`, `log_api_response`). -/
theorem claim1_counterexample :
    (generateAuthorChart dbEx2 (.ok "CODE" "fallback" "mm") false 5 "가" "bar").2.length = 3
    ∧ (3 : Nat) ≠ 1 :=
  ⟨rfl, by decide⟩

/-- Claim C1 as amended (status: corrected).  Every chart dispatch (single
or multi) appends the `api_call` record on entry.  A dispatch that ends in
validation failure or not-found failure appends nothing else — in
particular no record with a success flag, method, or elapsed time.  A
successful dispatch appends two further records (`chart_generation` and
`api_response`, both carrying the success flag and the elapsed time, the
former also the method), three records in total; an unexpected fault in
the chart-code step appends three further records (`chart_generation`,
`error`, `api_response`), four in total.  So the per-dispatch count is 1,
3 or 4, never exactly 1 across all outcomes. -/
theorem claim1_audit_records (db : List Post) (step : ChartStep) (en : Bool)
    (el : ℚ) (an ct : String) (ans : List String) :
    (validateChartType ct = false →
      (generateAuthorChart db step en el an ct).2
        = [logApiCallRec "generate_author_chart"
            (.obj [("author_name", .str an), ("chart_type", .str ct)])]
      ∧ (generateAuthorChart db step en el an ct).1.success = false)
    ∧ (validateChartType ct = true → (numericPosts db an).isEmpty = true →
      (generateAuthorChart db step en el an ct).2
        = [logApiCallRec "generate_author_chart"
            (.obj [("author_name", .str an), ("chart_type", .str ct)])]
      ∧ (generateAuthorChart db step en el an ct).1.success = false)
    ∧ (∀ code m msg, validateChartType ct = true →
      (numericPosts db an).isEmpty = false → step = .ok code m msg →
      (generateAuthorChart db step en el an ct).2
        = [logApiCallRec "generate_author_chart"
             (.obj [("author_name", .str an), ("chart_type", .str ct)]),
           logChartGenRec ct [an] true m el,
           logApiRespRec "generate_author_chart" true el
             (.obj [("author_name", .str an), ("chart_type", .str ct),
                    ("data_count", .num (numericPosts db an).length),
                    ("method", .str m)])]
      ∧ (generateAuthorChart db step en el an ct).1.success = true)
    ∧ (∀ e, validateChartType ct = true → (numericPosts db an).isEmpty = false →
      step = .fault e →
      (generateAuthorChart db step en el an ct).2
        = [logApiCallRec "generate_author_chart"
             (.obj [("author_name", .str an), ("chart_type", .str ct)]),
           logChartGenRec ct [an] false "error" el,
           logErrorRec "chart_generation" ("차트 생성 실패: " ++ e)
             (some (.obj [("author_name", .str an), ("chart_type", .str ct)])),
           logApiRespRec "generate_author_chart" false el
             (.obj [("error", .str e)])]
      ∧ (generateAuthorChart db step en el an ct).1.success = false)
    ∧ (ans.isEmpty = true →
      (generateMultiAuthorChart db step en el ans ct).2
        = [logApiCallRec "generate_multi_author_chart"
            (.obj [("author_names", .arr (ans.map .str)),
                   ("chart_type", .str ct)])]
      ∧ (generateMultiAuthorChart db step en el ans ct).1.success = false)
    ∧ (ans.isEmpty = false → validateChartType ct = false →
      (generateMultiAuthorChart db step en el ans ct).2
        = [logApiCallRec "generate_multi_author_chart"
            (.obj [("author_names", .arr (ans.map .str)),
                   ("chart_type", .str ct)])]
      ∧ (generateMultiAuthorChart db step en el ans ct).1.success = false)
    ∧ (ans.isEmpty = false → validateChartType ct = true →
      (ans.flatMap fun a => numericPosts db a).isEmpty = true →
      (generateMultiAuthorChart db step en el ans ct).2
        = [logApiCallRec "generate_multi_author_chart"
            (.obj [("author_names", .arr (ans.map .str)),
                   ("chart_type", .str ct)])]
      ∧ (generateMultiAuthorChart db step en el ans ct).1.success = false)
    ∧ (∀ code m msg, ans.isEmpty = false → validateChartType ct = true →
      (ans.flatMap fun a => numericPosts db a).isEmpty = false →
      step = .ok code m msg →
      (generateMultiAuthorChart db step en el ans ct).2
        = [logApiCallRec "generate_multi_author_chart"
             (.obj [("author_names", .arr (ans.map .str)),
                    ("chart_type", .str ct)]),
           logChartGenRec ct (ans.filter fun a => !(numericPosts db a).isEmpty)
             true m el,
           logApiRespRec "generate_multi_author_chart" true el
             (.obj [("authors", .arr ((ans.filter fun a =>
                       !(numericPosts db a).isEmpty).map .str)),
                    ("chart_type", .str ct),
                    ("data_count",
                     .num (ans.flatMap fun a => numericPosts db a).length),
                    ("method", .str m)])]
      ∧ (generateMultiAuthorChart db step en el ans ct).1.success = true)
    ∧ (∀ e, ans.isEmpty = false → validateChartType ct = true →
      (ans.flatMap fun a => numericPosts db a).isEmpty = false →
      step = .fault e →
      (generateMultiAuthorChart db step en el ans ct).2
        = [logApiCallRec "generate_multi_author_chart"
             (.obj [("author_names", .arr (ans.map .str)),
                    ("chart_type", .str ct)]),
           logChartGenRec ct ans false "error" el,
           logErrorRec "chart_generation" ("다중 작성자 차트 생성 실패: " ++ e)
             (some (.obj [("author_names", .arr (ans.map .str)),
                          ("chart_type", .str ct)])),
           logApiRespRec "generate_multi_author_chart" false el
             (.obj [("error", .str e)])]
      ∧ (generateMultiAuthorChart db step en el ans ct).1.success = false) := by
  refine ⟨?_, ?_, ?_, ?_, ?_, ?_, ?_, ?_, ?_⟩
  · intro h
    constructor <;> simp [generateAuthorChart, h]
  · intro h1 h2
    constructor <;> simp [generateAuthorChart, h1, h2]
  · intro code m msg h1 h2 h3
    subst h3
    constructor <;> simp [generateAuthorChart, h1, h2]
  · intro e h1 h2 h3
    subst h3
    constructor <;> simp [generateAuthorChart, h1, h2]
  · intro h
    constructor <;> simp [generateMultiAuthorChart, h]
  · intro h1 h2
    constructor <;> simp [generateMultiAuthorChart, h1, h2]
  · intro h1 h2 h3
    constructor <;> simp [generateMultiAuthorChart, h1, h2, h3]
  · intro code m msg h1 h2 h3 h4
    subst h4
    constructor <;> simp [generateMultiAuthorChart, h1, h2, h3]
  · intro e h1 h2 h3 h4
    subst h4
    constructor <;> simp [generateMultiAuthorChart, h1, h2, h3]

/-- Witness for the amended C1: a concrete successful single-author
dispatch (third conjunct), whose hypotheses hold by evaluation. -/
theorem claim1_audit_records_witness :
    (generateAuthorChart dbEx2 (.ok "CODE" "fallback" "mm") false 5 "가" "bar").1.success
      = true :=
  ((claim1_audit_records dbEx2 (.ok "CODE" "fallback" "mm") false 5 "가" "bar"
      []).2.2.1 "CODE" "fallback" "mm" rfl rfl rfl).2

theorem multiSummary_authors (a : List String) (d : List Post) :
    (generateMultiAuthorSummary a d).authors = a := by
  unfold generateMultiAuthorSummary
  split <;> rfl

/-- Claim C6, counterexample.  The claim says a requested author with zero
numeric records is noted in the returned metadata as excluded.  In the
concrete request `["가", "나"]` where `"나"` has no numeric rows, the
dispatch succeeds and drops `"나"`, but no metadata field of the result —
message, method, authors list, or summary — mentions `"나"` at all, so no
field can note it as excluded; the caller sees only the included
authors. -/
theorem claim6_counterexample :
    (generateMultiAuthorChart dbEx2 (.ok "CODE" "fallback" "mm") false 5
        ["가", "나"] "bar").1.success = true
    ∧ mentionsInChartResult
        (generateMultiAuthorChart dbEx2 (.ok "CODE" "fallback" "mm") false 5
          ["가", "나"] "bar").1 "나" = false :=
  ⟨rfl, rfl⟩

/-- Claim C6 as amended (status: corrected): in a multi-author request
given as an explicit list of names, every named author with zero
numeric-valued records is dropped from the resolved author set without an
error (as long as some requested author has data); the result's metadata
lists the included authors (the `authors` field and the summary's
`authors`), but does not note the dropped authors — the caller can only
reconstruct them by diffing the returned list against the request. -/
theorem claim6_dropped_authors (db : List Post) (en : Bool) (el : ℚ)
    (ans : List String) (ct code m msg : String)
    (hct : validateChartType ct = true) (hne : ans.isEmpty = false)
    (hdata : (ans.flatMap fun a => numericPosts db a).isEmpty = false) :
    (generateMultiAuthorChart db (.ok code m msg) en el ans ct).1.success = true
    ∧ (generateMultiAuthorChart db (.ok code m msg) en el ans ct).1.authors
        = some (ans.filter fun a => !(numericPosts db a).isEmpty)
    ∧ ∃ ms, (generateMultiAuthorChart db (.ok code m msg) en el ans ct).1.summary
          = some (.multi ms)
        ∧ ms.authors = ans.filter fun a => !(numericPosts db a).isEmpty := by
  refine ⟨?_, ?_, ⟨generateMultiAuthorSummary
    (ans.filter fun a => !(numericPosts db a).isEmpty)
    (ans.flatMap fun a => numericPosts db a), ?_, multiSummary_authors _ _⟩⟩
  · simp [generateMultiAuthorChart, hct, hne, hdata]
  · simp [generateMultiAuthorChart, hct, hne, hdata]
  · simp [generateMultiAuthorChart, hct, hne, hdata]

/-- Witness for the amended C6: requesting `["가", "나"]` resolves to the
included author list `["가"]`. -/
theorem claim6_dropped_authors_witness :
    (generateMultiAuthorChart dbEx2 (.ok "CODE" "fallback" "mm") false 5
        ["가", "나"] "bar").1.authors = some ["가"] :=
  (claim6_dropped_authors dbEx2 false 5 ["가", "나"] "bar" "CODE" "fallback"
    "mm" rfl rfl rfl).2.1

/-- Claim C7 (status: confirmed).  A command matching one of the
all-authors phrases makes the pattern fallback set `author_names` to the
ALL sentinel with `is_multi_author = true` (the multi-name extraction is
short-circuited by the sentinel branch); and against a store whose
numeric-author table is empty, the chart handler for such a command
returns the "no authors available" 400 failure rather than raising. -/
theorem claim7_all_authors_sentinel (command : String) (db : List Post)
    (step : ChartStep) (el : ℚ)
    (h : anyAllAuthorsHit (pyStrip command) = true) :
    (parseChartFallback command).author_names = some .all
    ∧ (parseChartFallback command).is_multi_author = true
    ∧ (authorsWithNumericData db = [] →
        createChartSim db step el command
          = .badRequest "데이터베이스에 작성자가 없습니다.") := by
  refine ⟨?_, ?_, ?_⟩
  · simp [parseChartFallback, h, PyAuthors.truthy]
  · simp [parseChartFallback, h]
  · intro hdb
    have hne : (pyStrip command == "") = false := by
      by_cases hc : pyStrip command = ""
      · exfalso
        rw [hc] at h
        exact absurd h (by decide)
      · simpa using hc
    have hv : (parseChartFallback (pyStrip command)).valid = true := by
      simp [parseChartFallback, pyStrip_idem, h, PyAuthors.truthy]
    have ha : (parseChartFallback (pyStrip command)).author_names = some .all := by
      simp [parseChartFallback, pyStrip_idem, h, PyAuthors.truthy]
    have hm : (parseChartFallback (pyStrip command)).is_multi_author = true := by
      simp [parseChartFallback, pyStrip_idem, h]
    simp [createChartSim, hne, hv, ha, hm, hdb]

/-- Witness for C7: the phrase `"모든 사람들"` against an empty store. -/
theorem claim7_all_authors_sentinel_witness :
    (parseChartFallback "모든 사람들").author_names = some .all
    ∧ (parseChartFallback "모든 사람들").is_multi_author = true
    ∧ createChartSim [] (.ok "CODE" "fallback" "mm") 5 "모든 사람들"
        = .badRequest "데이터베이스에 작성자가 없습니다." := by
  have h := claim7_all_authors_sentinel "모든 사람들" []
    (.ok "CODE" "fallback" "mm") 5 (by decide)
  exact ⟨h.1, h.2.1, h.2.2 rfl⟩

end MCPBoard
